import Mathlib

/-!
Verification of the `sluyspy` Python package against its natural-language
specification.  Each Python function that the claims touch is shallowly
embedded as a Lean definition; machine floats are modelled as exact numbers
(`ℚ` where the code only uses field operations, `ℝ` where square roots are
taken), external library results (NumPy `polyfit`, SciPy `curve_fit`,
`astroconst` constants, the host name, the configuration-file contents) are
explicit parameters of the embeddings.
-/

set_option autoImplicit false

namespace Sluyspy

/-! ### `system.py` -/

/-- Python truthiness of a function object: a `def`-created function is always
truthy, irrespective of what it would return when called.  `where_am_i` in
`system.py` writes `if on_think:` (the function object) instead of
`if on_think():`, so its conditions go through this coercion. -/
def truthyFn (_f : Unit → Bool) : Bool :=
  true

/-- Embedding of `system.where_am_i` (src/sluyspy/system.py:83-98).  The three
host tests are passed as the function objects `on_think`, `on_zotac`,
`on_hwc`; the source tests the objects themselves (`if on_think:`), which is
modelled by `truthyFn`. -/
def where_am_i (on_think on_zotac on_hwc : Unit → Bool) : String :=
  if truthyFn on_think then "think"
  else if truthyFn on_zotac then "zotac"
  else if truthyFn on_hwc then "hwc"
  else "Unknown"

/-! ### `env.py`

`environment()` builds an `Environment` record from the host name, the home
directory and the contents of the configuration file
`~/.python_environment.cfg`.  The file contents at the moment of the call are
modelled by `Config`: each `config.get*(section, key, fallback=...)` lookup
is an `Option` field (`none` = key absent, so the fallback is used). -/

/-- Contents of the configuration file as seen by the `configparser` lookups
in `env.environment` (src/sluyspy/env.py:76-98). -/
structure Config where
  timezone        : Option String := none
  longitude       : Option ℚ := none
  latitude        : Option ℚ := none
  altitude        : Option ℚ := none
  sp_basedir      : Option String := none
  el_basedir      : Option String := none
  knmi_10min      : Option String := none
  knmi_hourly     : Option String := none
  knmi_daily      : Option String := none
  wpw             : Option String := none
  thesky          : Option String := none
  hwc             : Option String := none
deriving DecidableEq

/-- Embedding of the `Environment` dataclass (src/sluyspy/env.py:27-49),
with the dataclass defaults. -/
structure Environment where
  tz              : String := ""
  geo_lon         : ℚ := 0
  geo_lat         : ℚ := 0
  geo_alt         : ℚ := 0
  host            : String := ""
  home            : String := ""
  on_think        : Bool := false
  on_zotac        : Bool := false
  on_hwc          : Bool := false
  sp_dir          : String := ""
  el_dir          : String := ""
  knmi_10min_dir  : String := ""
  knmi_hourly_dir : String := ""
  knmi_daily_dir  : String := ""
  wpw_dir         : String := ""
  thesky_dir      : String := ""
  hwc_dir         : String := ""
deriving DecidableEq

/-- Embedding of one call of `env.environment` (src/sluyspy/env.py:52-100).
`host` and `home` come from `system.host()` / `system.homedir()`, `d2r` is the
`astroconst` degree-to-radian factor, and `cfg` is the configuration-file
contents at the time of the call.  The second component counts how often the
configuration file is read during the call: the body calls `config.read`
exactly once. -/
def environment (host home : String) (d2r : ℚ) (cfg : Config) : Environment × Nat :=
  let e0 : Environment := {}
  ({ tz              := cfg.timezone.getD e0.tz
     geo_lon         := cfg.longitude.getD e0.geo_lon * d2r
     geo_lat         := cfg.latitude.getD e0.geo_lat * d2r
     geo_alt         := cfg.altitude.getD e0.geo_alt
     host            := host
     home            := home
     on_think        := host == "think"
     on_zotac        := host == "zotac"
     on_hwc          := host == "hwc"
     sp_dir          := (cfg.sp_basedir.getD e0.sp_dir).replace "~" home
     el_dir          := (cfg.el_basedir.getD e0.el_dir).replace "~" home
     knmi_10min_dir  := (cfg.knmi_10min.getD e0.knmi_10min_dir).replace "~" home
     knmi_hourly_dir := (cfg.knmi_hourly.getD e0.knmi_hourly_dir).replace "~" home
     knmi_daily_dir  := (cfg.knmi_daily.getD e0.knmi_daily_dir).replace "~" home
     wpw_dir         := (cfg.wpw.getD e0.wpw_dir).replace "~" home
     thesky_dir      := (cfg.thesky.getD e0.thesky_dir).replace "~" home
     hwc_dir         := (cfg.hwc.getD e0.hwc_dir).replace "~" home }, 1)

/-- A process trace of successive `environment()` calls: `cfgs` lists the
configuration-file contents seen by each call in order (the file may change
between calls).  Returns the records the calls return and the total number of
configuration-file reads performed. -/
def environmentCalls (host home : String) (d2r : ℚ) : List Config → List Environment × Nat
  | [] => ([], 0)
  | c :: cs =>
      let r := environment host home d2r c
      let rest := environmentCalls host home d2r cs
      (r.1 :: rest.1, r.2 + rest.2)

/-- Embedding of the module-level binding `env = _env.environment()` in
`solar_panels.py` (src/sluyspy/solar_panels.py:26): one record computed at
module-import time from the file contents at that moment. -/
def solar_panels_env (host home : String) (d2r : ℚ) (cfg : Config) : Environment :=
  (environment host home d2r cfg).1

/-- Configuration contents used as the concrete first read in the `C2`
counterexample. -/
def cfgAms : Config :=
  { timezone := some "Europe/Amsterdam" }

/-- Configuration contents used as the concrete second read in the `C2`
counterexample. -/
def cfgUtc : Config :=
  { timezone := some "UTC" }

/-! ### `cli.py` and `fit.py`

The y values, sigmas and fit coefficients are machine floats in the source;
they are modelled as real numbers.  The NumPy `polyfit` and SciPy
`curve_fit` library calls are oracles: their numerical output is a parameter
of the embedding, while everything the module itself computes from that
output is embedded faithfully. -/

/-- How an embedded call leaves normal control flow: `exitc` models
`cli.error` (message written to stderr, process exits with the given code),
`pyexc` an uncaught Python exception. -/
inductive PyExit where
  | exitc (message : String) (code : Nat)
  | pyexc (message : String)
deriving DecidableEq

/-- Embedding of `cli.error` with its default arguments `exit_program=True`,
`exit_code=1` (src/sluyspy/cli.py:42-57): the message is prefixed with
`ERROR: `, suffixed with `, aborting.`, and the process exits with code 1. -/
def cliError (message : String) : PyExit :=
  .exitc ("ERROR: " ++ message ++ ", aborting.") 1

/-- NumPy boolean-mask indexing `xs[mask]`: keep the entries of `xs` whose
mask entry is `true`. -/
def maskFilter {α : Type} (mask : List Bool) (xs : List α) : List α :=
  ((mask.zip xs).filter fun p => p.1).map fun p => p.2

/-- Evaluation of `numpy.poly1d(coefs)(x)` (used in
src/sluyspy/fit.py:186): polynomial with coefficients listed from the
highest power down, evaluated by Horner's scheme. -/
noncomputable def np_polyval (coefs : List ℝ) (x : ℝ) : ℝ :=
  coefs.foldl (fun acc c => acc * x + c) 0

/-- `numpy.diag` of a two-dimensional array given as a list of rows
(used in src/sluyspy/fit.py:125). -/
noncomputable def np_diag (m : List (List ℝ)) : List ℝ :=
  m.enum.map fun p => p.2.getD p.1 0

/-- The sigma-screening step of `print_fit_details`
(src/sluyspy/fit.py:205-210): the boolean mask `ysigmas>0` is applied to
`xvals` (when present), `yfit`, `yvals` and `ysigmas` itself. -/
noncomputable def sigmaScreen (xvals : Option (List ℝ)) (yfit yvals ysigmas : List ℝ) :
    Option (List ℝ) × List ℝ × List ℝ × List ℝ :=
  let mask := ysigmas.map fun s => decide (0 < s)
  (xvals.map (maskFilter mask), maskFilter mask yfit, maskFilter mask yvals,
    maskFilter mask ysigmas)

/-- The fit-value computation of `print_fit_details`
(src/sluyspy/fit.py:185-197): determine `yfit` from the fit type, or leave
through `cli.error`.  In the `np_polyfit` branch a `None` coefficient array
or `None` x values would raise inside `numpy` (`pyexc`); in the
`scipy_curvefit` branch missing `fit_fun` or `coefs` are caught explicitly
by the source and reported through `cli.error`. -/
noncomputable def pfd_yfit (xvals : Option (List ℝ)) (fittype : Option String)
    (coefs : Option (List ℝ)) (fit_fun : Option (ℝ → List ℝ → ℝ))
    (yfit0 : Option (List ℝ)) : Except PyExit (List ℝ) :=
  match fittype with
  | some ft =>
      if ft = "np_polyfit" then
        match coefs, xvals with
        | some cs, some xv => .ok (xv.map (np_polyval cs))
        | _, _ => .error (.pyexc "TypeError")
      else if ft = "scipy_curvefit" then
        match fit_fun with
        | none => .error (cliError "A fit function must be specified for fittype scipy_curvefit")
        | some f =>
            match coefs with
            | none =>
                .error (cliError "Fit coefficients must be specified for fittype scipy_curvefit")
            | some cs =>
                match xvals with
                | some xv => .ok (xv.map fun x => f x cs)
                | none => .error (.pyexc "TypeError")
      else
        .error (cliError ("Unknown fittype: " ++ ft ++
          "; must be one of \"np_polyfit\", \"scipy_curvefit\" or None."))
  | none =>
      match yfit0 with
      | none => .error (cliError "yfit values must be specified for fittype None")
      | some yf => .ok yf

/-- `len(coefs)` with `None` counting as zero coefficients
(src/sluyspy/fit.py:224-227). -/
def ncoefsOf : Option (List ℝ) → ℕ
  | none => 0
  | some cs => cs.length

/-- The reduced-chi-square computation of `print_fit_details`
(src/sluyspy/fit.py:229-233) on the (already screened) arrays:
`ydiffs = yfit - yvals`, `yresids = ydiffs/ysigmas`,
`chi2 = sum(yresids**2)`, `red_chi2 = chi2/(ndat-ncoefs)`. -/
noncomputable def pfd_core (yfit yvals ysigmas : List ℝ) (ncoefs : ℕ) : ℝ :=
  let ndat := yvals.length
  let ydiffs := List.zipWith (fun f y => f - y) yfit yvals
  let yresids := List.zipWith (fun d s => d / s) ydiffs ysigmas
  let chi2 := (yresids.map fun r => r ^ 2).sum
  chi2 / ((ndat : ℝ) - (ncoefs : ℝ))

/-- Embedding of `fit.print_fit_details` (src/sluyspy/fit.py:134-383):
determine the fit values (`pfd_yfit`), coerce them with `yfit = yvals*0 +
yfit` (line 199), substitute all-one sigmas or screen out non-positive
sigmas (lines 201-211), and return the reduced chi-square (lines 223-233,
383).  All remaining statements of the source only print; the returned value
is the reduced chi-square. -/
noncomputable def print_fit_details (xvals : Option (List ℝ)) (yvals : List ℝ)
    (ysigmas : Option (List ℝ)) (fittype : Option String) (coefs : Option (List ℝ))
    (fit_fun : Option (ℝ → List ℝ → ℝ)) (yfit0 : Option (List ℝ)) (_verbosity : ℤ) :
    Except PyExit ℝ :=
  match pfd_yfit xvals fittype coefs fit_fun yfit0 with
  | .error e => .error e
  | .ok yfit1 =>
      let yfit := List.zipWith (fun y f => y * 0 + f) yvals yfit1
      match ysigmas with
      | none => .ok (pfd_core yfit yvals (yvals.map fun y => y * 0 + 1) (ncoefsOf coefs))
      | some s =>
          let scr := sigmaScreen xvals yfit yvals s
          .ok (pfd_core scr.2.1 scr.2.2.1 scr.2.2.2 (ncoefsOf coefs))

/-- Embedding of `fit.np_polyfit_chi2` (src/sluyspy/fit.py:25-65).  The
`numpy.polyfit` call is a library call; its coefficient array is the oracle
parameter `polyfit_coefs` (its further outputs are only printed).  When
`ysigmas=None` the source sets all sigmas to one before computing the
statistics. -/
noncomputable def np_polyfit_chi2 (polyfit_coefs : List ℝ) (xvals yvals : List ℝ)
    (_order : ℕ) (ysigmas : Option (List ℝ)) (verbosity : ℤ) :
    Except PyExit (List ℝ × ℝ) :=
  let ysig := match ysigmas with
    | none => yvals.map fun y => y * 0 + 1
    | some s => s
  match print_fit_details (some xvals) yvals (some ysig) (some "np_polyfit")
      (some polyfit_coefs) none none verbosity with
  | .error e => .error e
  | .ok red_chi2 => .ok (polyfit_coefs, red_chi2)

/-- The tuple `(coefs, dcoefs, red_chi2, var_cov, ier)` returned by
`fit.scipy_curvefit_chi2` (src/sluyspy/fit.py:82-88, 108, 131); `none`
models Python `None`. -/
structure ScipyFitResult where
  coefs    : Option (List ℝ)
  dcoefs   : Option (List ℝ)
  red_chi2 : Option ℝ
  var_cov  : Option (List (List ℝ))
  ier      : ℤ

/-- Embedding of `fit.scipy_curvefit_chi2` (src/sluyspy/fit.py:69-131).
The `scipy.optimize.curve_fit` library call is the oracle parameter
`curvefit`: either a raised exception with its message, or the returned
`(coefs, var_cov, ier)` (the `infodict`/`mesg` outputs are only printed).
The second component of the result collects the failure messages printed by
lines 100-107 (the only printing the claims are about). -/
noncomputable def scipy_curvefit_chi2 (fit_fun : ℝ → List ℝ → ℝ)
    (curvefit : Except String (List ℝ × List (List ℝ) × ℤ))
    (xvals yvals _coefs0 : List ℝ) (ysigmas : Option (List ℝ)) (verbosity : ℤ) :
    Except PyExit ScipyFitResult × List String :=
  match curvefit with
  | .error e =>
      (.ok ⟨none, none, none, none, -1⟩,
        (if verbosity > 0 then ["sluyspy.fit: fit failed: " ++ e] else []) ++
        (if verbosity > 0 then ["Fit failed: -1"] else []))
  | .ok (coefs, var_cov, ier) =>
      if ier ≤ 0 then
        (.ok ⟨none, none, none, none, ier⟩,
          if verbosity > 0 then ["Fit failed: " ++ toString ier] else [])
      else
        let ysig := match ysigmas with
          | none => yvals.map fun y => y * 0 + 1
          | some s => s
        let dcoefs := (np_diag var_cov).map Real.sqrt
        match print_fit_details (some xvals) yvals (some ysig) (some "scipy_curvefit")
            (some coefs) (some fit_fun) none verbosity with
        | .error e => (.error e, [])
        | .ok red_chi2 =>
            (.ok ⟨some coefs, some dcoefs, some red_chi2, some var_cov, ier⟩, [])

/-- Embedding of `fit.correlation_matrix_from_variance_covariance_matrix`
(src/sluyspy/fit.py:386-403): `corr[i][j] = var_cov[i,j] /
sqrt(var_cov[i,i]*var_cov[j,j])` for a square matrix. -/
noncomputable def correlation_matrix_from_variance_covariance_matrix {n : ℕ}
    (var_cov : Matrix (Fin n) (Fin n) ℝ) : Matrix (Fin n) (Fin n) ℝ :=
  Matrix.of fun i j => var_cov i j / Real.sqrt (var_cov i i * var_cov j j)

/-- Specification-side chi-square, following the spec text: the sum over the
data of the squared sigma-weighted residuals `((yfit_i - y_i)/sigma_i)^2`. -/
noncomputable def chi2Spec : List ℝ → List ℝ → List ℝ → ℝ
  | yf :: yfs, y :: ys, s :: ss => ((yf - y) / s) ^ 2 + chi2Spec yfs ys ss
  | _, _, _ => 0

/-! ### `gws.py` -/

/-- The `astroconst` constants used by `gws.py`; `astroconst` is an external
library, so its values are abstract parameters of the embedding. -/
structure AstroConst where
  c     : ℝ
  G     : ℝ
  g     : ℝ
  pi    : ℝ
  pi2   : ℝ
  h_bar : ℝ
  sun_m : ℝ
  km    : ℝ

/-- `numpy.logspace(a, b, n)`: `n` points from `10^a` to `10^b`, evenly
spaced in the exponent. -/
noncomputable def np_logspace (a b : ℝ) (n : ℕ) : List ℝ :=
  (List.range n).map fun i => (10 : ℝ) ^ (a + (b - a) * i / ((n : ℝ) - 1))

/-- Embedding of `gws.radius_BH_NS_from_mass` (src/sluyspy/gws.py:362-385):
11.5 km for a neutron star below 3.9 solar masses, the Schwarzschild radius
otherwise. -/
noncomputable def radius_BH_NS_from_mass (ac : AstroConst) (mass : ℝ) : ℝ :=
  if mass < 3.9 * ac.sun_m then 11.5 * ac.km else 2 * ac.G * mass / ac.c ^ 2

/-- One row of the frequency-domain waveform dataframe of
`gws.cbc_waveform_frequency_array`. -/
structure FreqRow where
  fgw            : ℝ
  htilde         : ℝ
  htilde_pSqrtHz : ℝ

/-- Embedding of `gws.cbc_waveform_frequency_array`
(src/sluyspy/gws.py:124-185): the input frequency column is `fgws`; `htilde`
and `htilde_pSqrtHz` are computed for each row, and rows with
`fgw >= f_max` are cut.  `cosi` and `verbosity` do not enter the returned
columns (the commented-out polarisation block is dead code, and `verbosity`
only prints). -/
noncomputable def cbc_waveform_frequency_array (ac : AstroConst) (fgws : List ℝ)
    (m1 m2 dist cosi risco_fac Fplcr : ℝ) (verbosity : ℤ) : List FreqRow :=
  let _ := cosi
  let _ := verbosity
  let mt := m1 + m2
  let Mc := (m1 * m2 / mt ^ ((1 : ℝ) / 3)) ^ ((3 : ℝ) / 5)
  let a_min := radius_BH_NS_from_mass ac m1 + radius_BH_NS_from_mass ac m2
  let f_max := 1 / ac.pi * Real.sqrt (ac.G * mt / (risco_fac * a_min) ^ 3)
  let rows := fgws.map fun f =>
    let h_sq := 5 / (24 * ac.pi ^ ((4 : ℝ) / 3) * dist ^ 2 * ac.c ^ 3) *
      (ac.G * Mc) ^ ((5 : ℝ) / 3) / f ^ ((7 : ℝ) / 3)
    { fgw := f, htilde := Fplcr * Real.sqrt h_sq,
      htilde_pSqrtHz := 2 * (Fplcr * Real.sqrt h_sq) * Real.sqrt f : FreqRow }
  rows.filter fun r => decide (r.fgw < f_max)

/-- Embedding of `gws.cbc_waveform_frequency` (src/sluyspy/gws.py:92-121):
builds the logarithmic frequency grid and delegates to
`cbc_waveform_frequency_array`, passing the hard-coded values
`risco_fac=1.5`, `Fplcr=2/5` and `verbosity=0` instead of its own
`risco_fac`, `Fplcr` and `verbosity` arguments (line 119). -/
noncomputable def cbc_waveform_frequency (ac : AstroConst)
    (m1 m2 dist cosi f_low f_high : ℝ) (Npts : ℕ)
    (risco_fac Fplcr : ℝ) (verbosity : ℤ) : List FreqRow :=
  let _ := risco_fac
  let _ := Fplcr
  let _ := verbosity
  let fgws := np_logspace (Real.logb 10 f_low) (Real.logb 10 f_high) Npts
  cbc_waveform_frequency_array ac fgws m1 m2 dist cosi 1.5 (2 / 5) 0

/-- One row of the noise-curve dataframe of `gws.noise_curve`: `asd_lowf` is
`none` when the `asd_lowf` column was never created (`adhoc_lowf=False`). -/
structure NoiseRow where
  fgw      : ℝ
  asd      : ℝ
  asd_shot : ℝ
  asd_rad  : ℝ
  asd_lowf : Option ℝ

/-- One row of `gws.noise_curve` (src/sluyspy/gws.py:224-252) at frequency
`f`.  The source computes `Fin`, `f_pole` and the columns once, vectorized;
per-row evaluation of the same formulae is equivalent.  With `adhoc_lowf`
the ad-hoc low-frequency term `alpha / fgw**pow / Len * seismic_isolation`
(`alpha = 1e-6`, `pow = 6`, `seismic_isolation = 1e-4`) is added to `asd`. -/
noncomputable def noise_curve_row (ac : AstroConst)
    (Len P_L lam_L eta_pd M_mir R_in R_end PRfac : ℝ)
    (no_FP adhoc_lowf : Bool) (f : ℝ) : NoiseRow :=
  let Fin := if no_FP then ac.pi / 2 else ac.pi * Real.sqrt (R_in * R_end) / (1 - R_in * R_end)
  let f_pole := if no_FP then 0 else ac.c / (4 * Fin * Len)
  let f_pole_fac := if no_FP then 1 else Real.sqrt (1 + (f / f_pole) ^ 2)
  let asd_shot := 1 / (8 * Fin * Len) *
    Real.sqrt ((4 * ac.pi * ac.h_bar * ac.c * lam_L) / (eta_pd * PRfac * P_L)) * f_pole_fac
  let asd_rad := 16 * Real.sqrt 2 * Fin / (M_mir * Len * (ac.pi2 * f) ^ 2) *
    Real.sqrt ((ac.h_bar * P_L * PRfac) / (ac.pi2 * lam_L * ac.c)) / f_pole_fac
  if adhoc_lowf then
    let asd_lowf := (1 / 1000000 : ℝ) / f ^ (6 : ℕ) / Len * (1 / 10000 : ℝ)
    { fgw := f, asd := asd_shot + asd_rad + asd_lowf, asd_shot := asd_shot,
      asd_rad := asd_rad, asd_lowf := some asd_lowf }
  else
    { fgw := f, asd := asd_shot + asd_rad, asd_shot := asd_shot,
      asd_rad := asd_rad, asd_lowf := none }

/-- Embedding of `gws.noise_curve` (src/sluyspy/gws.py:188-281): one
`NoiseRow` for each frequency of the logarithmic grid. -/
noncomputable def noise_curve (ac : AstroConst) (Npts : ℕ) (f_low f_high : ℝ)
    (Len P_L lam_L eta_pd M_mir R_in R_end PRfac : ℝ)
    (no_FP adhoc_lowf : Bool) : List NoiseRow :=
  (np_logspace (Real.logb 10 f_low) (Real.logb 10 f_high) Npts).map
    (noise_curve_row ac Len P_L lam_L eta_pd M_mir R_in R_end PRfac no_FP adhoc_lowf)

end Sluyspy

/-! ### Claim theorems for `system.py` and `env.py` -/

/-- C9: `where_am_i()` returns `"think"` whatever the three host-test
functions would return when called, because the source tests the (always
truthy) function objects `on_think`, `on_zotac`, `on_hwc` instead of calling
them, so the first branch is always taken. -/
theorem where_am_i_always_think (on_think on_zotac on_hwc : Unit → Bool) :
    Sluyspy.where_am_i on_think on_zotac on_hwc = "think" :=
  rfl

/-- C2 counterexample: `environment()` is not memoized.  In a process that
calls `environment()` twice on host `think` while the configuration file
changes between the calls, the second call returns a different record than
the first, and the configuration file is read twice — contradicting the
claim that after the first call every later call returns the one stored
record without reading the configuration file again. -/
theorem environment_not_memoized_cex :
    (Sluyspy.environmentCalls "think" "/home/sluys" 1 [Sluyspy.cfgAms, Sluyspy.cfgUtc]).2 = 2 ∧
    (Sluyspy.environmentCalls "think" "/home/sluys" 1 [Sluyspy.cfgAms, Sluyspy.cfgUtc]).1.get? 1 ≠
      (Sluyspy.environmentCalls "think" "/home/sluys" 1 [Sluyspy.cfgAms, Sluyspy.cfgUtc]).1.get? 0 := by
  constructor
  · rfl
  · decide

/-- C2 amended: `environment()` keeps no state between calls: every call in a
process re-reads the configuration file (n calls perform n reads) and
recomputes its record from the file contents seen by that call, so calls
agree only when the underlying inputs do; the sole once-per-process record is
the module-level `env` binding of `solar_panels.py`, evaluated at import
time. -/
theorem environment_rereads_config_each_call (host home : String) (d2r : ℚ)
    (cfgs : List Sluyspy.Config) :
    Sluyspy.environmentCalls host home d2r cfgs =
      (cfgs.map fun c => Sluyspy.solar_panels_env host home d2r c, cfgs.length) := by
  induction cfgs with
  | nil => rfl
  | cons c cs ih =>
      simp only [Sluyspy.environmentCalls, ih, List.map_cons, List.length_cons,
        Sluyspy.solar_panels_env]
      exact Prod.ext rfl (by simp [Sluyspy.environment, Nat.add_comm])

/-! ### Helper lemmas for the `fit.py` claims -/

open Sluyspy

/-- Unfolding of NumPy boolean-mask indexing on a cons cell. -/
theorem maskFilter_cons {α : Type} (b : Bool) (ms : List Bool) (x : α) (xs : List α) :
    maskFilter (b :: ms) (x :: xs)
      = if b then x :: maskFilter ms xs else maskFilter ms xs := by
  cases b <;> simp [maskFilter]

/-- A mask of all-positive sigmas keeps every entry of an equally long
array. -/
theorem maskFilter_all_pos {α : Type} (sg : List ℝ) (xs : List α)
    (h : xs.length = sg.length) (hpos : ∀ s ∈ sg, 0 < s) :
    maskFilter (sg.map fun v => decide (0 < v)) xs = xs := by
  induction sg generalizing xs with
  | nil =>
      cases xs with
      | nil => rfl
      | cons a as => simp at h
  | cons s ss ih =>
      cases xs with
      | nil => simp at h
      | cons a as =>
          have hs : (0 : ℝ) < s := hpos s (by simp)
          have ih2 := ih as (by simpa using h) fun t ht => hpos t (by simp [ht])
          simp [maskFilter_cons, hs, ih2]

/-- The sigma mask applied to an equally long array keeps exactly the
entries paired with a positive sigma. -/
theorem maskFilter_pos_eq_zip_filter {α : Type} (sg : List ℝ) (xs : List α)
    (h : xs.length = sg.length) :
    maskFilter (sg.map fun v => decide (0 < v)) xs
      = ((xs.zip sg).filter fun p => decide (0 < p.2)).map Prod.fst := by
  induction sg generalizing xs with
  | nil =>
      cases xs with
      | nil => rfl
      | cons a as => simp at h
  | cons s ss ih =>
      cases xs with
      | nil => simp at h
      | cons a as =>
          have ih2 := ih as (by simpa using h)
          by_cases hs : (0 : ℝ) < s <;>
            simp [maskFilter_cons, List.filter_cons, hs, ih2]

/-- The sigma mask applied to the sigmas themselves is a plain filter. -/
theorem maskFilter_self_eq_filter (sg : List ℝ) :
    maskFilter (sg.map fun v => decide (0 < v)) sg
      = sg.filter fun s => decide (0 < s) := by
  induction sg with
  | nil => rfl
  | cons s ss ih =>
      by_cases hs : (0 : ℝ) < s <;> simp [maskFilter_cons, List.filter_cons, hs, ih]

/-- Filtering an equal-length zip by positivity of the second component
yields as many entries as filtering the sigmas alone. -/
theorem zip_filter_pos_length {α : Type} (sg : List ℝ) (xs : List α)
    (h : xs.length = sg.length) :
    (((xs.zip sg).filter fun p => decide (0 < p.2)).map Prod.fst).length
      = (sg.filter fun s => decide (0 < s)).length := by
  induction sg generalizing xs with
  | nil =>
      cases xs with
      | nil => rfl
      | cons a as => simp at h
  | cons s ss ih =>
      cases xs with
      | nil => simp at h
      | cons a as =>
          have ih2 := ih as (by simpa using h)
          by_cases hs : (0 : ℝ) < s <;> simp [List.filter_cons, hs, ih2]

/-- The `yfit = yvals*0 + yfit` coercion of src/sluyspy/fit.py:199 is the
identity on equal-length real arrays. -/
theorem zipWith_zero_add_eq (yv yf : List ℝ) (h : yv.length = yf.length) :
    List.zipWith (fun y f => y * 0 + f) yv yf = yf := by
  induction yv generalizing yf with
  | nil =>
      cases yf with
      | nil => rfl
      | cons f fs => simp at h
  | cons y ys ih =>
      cases yf with
      | nil => simp at h
      | cons f fs =>
          have ih2 := ih fs (by simpa using h)
          simp only [List.zipWith_cons_cons, ih2, List.cons.injEq]
          exact ⟨by ring, trivial⟩

/-- The `ydiffs`/`yresids`/`chi2` pipeline of src/sluyspy/fit.py:230-232
computes the specification chi-square. -/
theorem chi2_pipeline (yf yv sg : List ℝ) :
    ((List.zipWith (fun d s => d / s)
        (List.zipWith (fun f y => f - y) yf yv) sg).map fun r => r ^ 2).sum
      = chi2Spec yf yv sg := by
  induction yf generalizing yv sg with
  | nil => cases yv <;> cases sg <;> simp [chi2Spec]
  | cons f fs ih =>
      cases yv with
      | nil => cases sg <;> simp [chi2Spec]
      | cons y ys =>
          cases sg with
          | nil => simp [chi2Spec]
          | cons s ss => simp [chi2Spec, ih]

/-- `pfd_core` in closed form. -/
theorem pfd_core_eq_chi2Spec (yf yv sg : List ℝ) (m : ℕ) :
    pfd_core yf yv sg m = chi2Spec yf yv sg / ((yv.length : ℝ) - (m : ℝ)) := by
  simp [pfd_core, chi2_pipeline]

/-- With all sigmas positive and equal lengths, the screening step keeps
all four arrays unchanged. -/
theorem sigmaScreen_all_pos (xv yf yv sg : List ℝ)
    (hx : xv.length = sg.length) (hf : yf.length = sg.length)
    (hv : yv.length = sg.length) (hpos : ∀ s ∈ sg, 0 < s) :
    sigmaScreen (some xv) yf yv sg = (some xv, yf, yv, sg) := by
  simp [sigmaScreen, maskFilter_all_pos _ _ hx hpos, maskFilter_all_pos _ _ hf hpos,
    maskFilter_all_pos _ _ hv hpos, maskFilter_all_pos sg sg rfl hpos]

/-- The `np_polyfit` branch of the fit-value computation. -/
theorem pfd_yfit_np (xv cs : List ℝ) (f : Option (ℝ → List ℝ → ℝ)) (y0 : Option (List ℝ)) :
    pfd_yfit (some xv) (some "np_polyfit") (some cs) f y0
      = .ok (xv.map (np_polyval cs)) := by
  simp [pfd_yfit]

/-- The good `scipy_curvefit` branch of the fit-value computation. -/
theorem pfd_yfit_scipy (xv cs : List ℝ) (f : ℝ → List ℝ → ℝ) (y0 : Option (List ℝ)) :
    pfd_yfit (some xv) (some "scipy_curvefit") (some cs) (some f) y0
      = .ok (xv.map fun x => f x cs) := by
  simp [pfd_yfit]

/-- The `fittype=None` branch of the fit-value computation with given `yfit`
values. -/
theorem pfd_yfit_none (xv : Option (List ℝ)) (cs : Option (List ℝ))
    (f : Option (ℝ → List ℝ → ℝ)) (yf : List ℝ) :
    pfd_yfit xv none cs f (some yf) = .ok yf := by
  simp [pfd_yfit]

/-- Evaluation of `print_fit_details` when the fit-value computation
succeeds, the arrays have equal lengths and all sigmas are positive: the
returned value is chi-square over (number of data points minus number of
coefficients). -/
theorem print_fit_details_eval (xv yv sg yfit1 : List ℝ) (ft : Option String)
    (cs : Option (List ℝ)) (f : Option (ℝ → List ℝ → ℝ)) (y0 : Option (List ℝ))
    (verb : ℤ) (hyfit : pfd_yfit (some xv) ft cs f y0 = .ok yfit1)
    (hx : xv.length = yv.length) (hf : yfit1.length = yv.length)
    (hsg : sg.length = yv.length) (hpos : ∀ s ∈ sg, 0 < s) :
    print_fit_details (some xv) yv (some sg) ft cs f y0 verb
      = .ok (chi2Spec yfit1 yv sg / ((yv.length : ℝ) - (ncoefsOf cs : ℝ))) := by
  unfold print_fit_details
  rw [hyfit]
  have hcoerce : List.zipWith (fun y f => y * 0 + f) yv yfit1 = yfit1 :=
    zipWith_zero_add_eq yv yfit1 hf.symm
  simp only [hcoerce]
  rw [sigmaScreen_all_pos xv yfit1 yv sg (by omega) (by omega) (by omega) hpos]
  simp [pfd_core_eq_chi2Spec]

/-- `print_fit_details` always succeeds on the good `scipy_curvefit`
inputs (fit function and coefficients given). -/
theorem print_fit_details_scipy_isOk (xv yv : List ℝ) (sgo : Option (List ℝ))
    (cs : List ℝ) (f : ℝ → List ℝ → ℝ) (verb : ℤ) :
    ∃ r, print_fit_details (some xv) yv sgo (some "scipy_curvefit") (some cs)
      (some f) none verb = .ok r := by
  unfold print_fit_details
  rw [pfd_yfit_scipy]
  cases sgo <;> exact ⟨_, rfl⟩

/-- Shape of the `scipy_curvefit_chi2` result on a successful fit
(`ier > 0`): the final coefficients, the square roots of the diagonal of the
variance-covariance matrix, some reduced chi-square, the matrix itself and
`ier`, with no failure message printed. -/
theorem scipy_curvefit_success_shape (fit_fun : ℝ → List ℝ → ℝ) (cs : List ℝ)
    (vc : List (List ℝ)) (ier : ℤ) (xv yv cs0 : List ℝ) (ysig : Option (List ℝ))
    (verb : ℤ) (hier : 0 < ier) :
    ∃ r : ℝ, scipy_curvefit_chi2 fit_fun (.ok (cs, vc, ier)) xv yv cs0 ysig verb
      = (.ok ⟨some cs, some ((np_diag vc).map Real.sqrt), some r, some vc, ier⟩, []) := by
  obtain ⟨r, hr⟩ := print_fit_details_scipy_isOk xv yv
    (some (match ysig with
      | none => yv.map fun y => y * 0 + 1
      | some s => s)) cs fit_fun verb
  refine ⟨r, ?_⟩
  unfold scipy_curvefit_chi2
  simp only [if_neg (not_le.mpr hier), hr]

/-- Entry `i` of the generalized diagonal extraction (`enumFrom` form). -/
theorem enumFrom_diag_getD (m : List (List ℝ)) (n i : ℕ) :
    ((m.enumFrom n).map fun p => p.2.getD p.1 0).getD i 0
      = (m.getD i []).getD (n + i) 0 := by
  induction m generalizing n i with
  | nil => simp [List.getD]
  | cons row rows ih =>
      cases i with
      | zero => simp [List.enumFrom]
      | succ j =>
          have h1 := ih (n + 1) j
          have h2 : n + 1 + j = n + (j + 1) := by omega
          rw [h2] at h1
          simpa [List.enumFrom] using h1

/-- Entry `i` of `numpy.diag` is entry `[i][i]` of the matrix (out-of-range
indices defaulting to 0 on both sides). -/
theorem np_diag_getD (m : List (List ℝ)) (i : ℕ) :
    (np_diag m).getD i 0 = (m.getD i []).getD i 0 := by
  have := enumFrom_diag_getD m 0 i
  simpa [np_diag, List.enum] using this

/-- `getD` commutes with mapping `Real.sqrt` (the default 0 is a fixed point
of `sqrt`). -/
theorem getD_map_sqrt (l : List ℝ) (i : ℕ) :
    (l.map Real.sqrt).getD i 0 = Real.sqrt (l.getD i 0) := by
  induction l generalizing i with
  | nil => simp [List.getD, Real.sqrt_zero]
  | cons a as ih =>
      cases i with
      | zero => simp
      | succ j => simpa using ih j

/-! ### Claim theorems for `fit.py` -/

/-- C1: the reduced chi-square returned by `print_fit_details` (in its
`np_polyfit`, `scipy_curvefit` and `fittype=None` modes), and hence by
`np_polyfit_chi2` and by `scipy_curvefit_chi2` on a successful fit, equals
chi-square divided by `n - m`: chi-square is the sum over the data of the
squared sigma-weighted residuals `((yfit_i - y_i)/sigma_i)^2`, `n` the
number of data points and `m` the length of the coefficient array (0 when
`coefs` is `None`). -/
theorem red_chi2_is_chi2_over_ndof
    (xv yv sg cs yf cs0 : List ℝ) (f : ℝ → List ℝ → ℝ)
    (vc : List (List ℝ)) (ier : ℤ) (order : ℕ) (verb : ℤ)
    (hx : xv.length = yv.length) (hsg : sg.length = yv.length)
    (hyf : yf.length = yv.length) (hpos : ∀ s ∈ sg, 0 < s) (hier : 0 < ier) :
    print_fit_details (some xv) yv (some sg) (some "np_polyfit") (some cs) none none verb
        = .ok (chi2Spec (xv.map (np_polyval cs)) yv sg
            / ((yv.length : ℝ) - (cs.length : ℝ)))
  ∧ print_fit_details (some xv) yv (some sg) (some "scipy_curvefit") (some cs)
        (some f) none verb
        = .ok (chi2Spec (xv.map fun x => f x cs) yv sg
            / ((yv.length : ℝ) - (cs.length : ℝ)))
  ∧ print_fit_details (some xv) yv (some sg) none none none (some yf) verb
        = .ok (chi2Spec yf yv sg / ((yv.length : ℝ) - (0 : ℝ)))
  ∧ np_polyfit_chi2 cs xv yv order (some sg) verb
        = .ok (cs, chi2Spec (xv.map (np_polyval cs)) yv sg
            / ((yv.length : ℝ) - (cs.length : ℝ)))
  ∧ scipy_curvefit_chi2 f (.ok (cs, vc, ier)) xv yv cs0 (some sg) verb
        = (.ok ⟨some cs, some ((np_diag vc).map Real.sqrt),
            some (chi2Spec (xv.map fun x => f x cs) yv sg
              / ((yv.length : ℝ) - (cs.length : ℝ))), some vc, ier⟩, []) := by
  have h1 := print_fit_details_eval xv yv sg (xv.map (np_polyval cs))
    (some "np_polyfit") (some cs) none none verb (pfd_yfit_np xv cs none none)
    hx (by simpa using hx) hsg hpos
  have h2 := print_fit_details_eval xv yv sg (xv.map fun x => f x cs)
    (some "scipy_curvefit") (some cs) (some f) none verb (pfd_yfit_scipy xv cs f none)
    hx (by simpa using hx) hsg hpos
  have h3 := print_fit_details_eval xv yv sg yf none none none (some yf) verb
    (pfd_yfit_none (some xv) none none yf) hx hyf hsg hpos
  refine ⟨h1, h2, by simpa [ncoefsOf] using h3, ?_, ?_⟩
  · unfold np_polyfit_chi2
    simp only [h1, ncoefsOf]
  · unfold scipy_curvefit_chi2
    simp only [if_neg (not_le.mpr hier), h2, ncoefsOf]

/-- C1 witness: the theorem applied at a one-point data set. -/
theorem red_chi2_is_chi2_over_ndof_witness :
    print_fit_details (some [(1 : ℝ)]) [(2 : ℝ)] (some [(1 : ℝ)]) (some "np_polyfit")
        (some ([] : List ℝ)) none none 0
      = .ok (chi2Spec ([(1 : ℝ)].map (np_polyval ([] : List ℝ))) [(2 : ℝ)] [(1 : ℝ)]
          / ((([(2 : ℝ)] : List ℝ).length : ℝ) - ((([] : List ℝ)).length : ℝ))) :=
  (red_chi2_is_chi2_over_ndof [(1 : ℝ)] [(2 : ℝ)] [(1 : ℝ)] [] [(2 : ℝ)] []
    (fun _ _ => 0) [] 1 0 0 rfl rfl rfl (by norm_num) (by norm_num)).1

/-- C3: when the `scipy.optimize.curve_fit` call raises, the exception is
caught, a message is printed exactly when `verbosity > 0`, and the function
returns `(None, None, None, None, -1)`; likewise, when the call returns
`ier <= 0`, the function prints a failure message (when `verbosity > 0`) and
returns `(None, None, None, None, ier)` with no further computation. -/
theorem scipy_curvefit_failure_path (f : ℝ → List ℝ → ℝ) (xv yv cs0 : List ℝ)
    (ysig : Option (List ℝ)) (verb : ℤ)
    (outcome : Except String (List ℝ × List (List ℝ) × ℤ)) :
    (∀ e, outcome = .error e →
      scipy_curvefit_chi2 f outcome xv yv cs0 ysig verb
        = (.ok ⟨none, none, none, none, -1⟩,
            if verb > 0 then ["sluyspy.fit: fit failed: " ++ e, "Fit failed: -1"] else []))
  ∧ (∀ cs vc ier, outcome = .ok (cs, vc, ier) → ier ≤ 0 →
      scipy_curvefit_chi2 f outcome xv yv cs0 ysig verb
        = (.ok ⟨none, none, none, none, ier⟩,
            if verb > 0 then ["Fit failed: " ++ toString ier] else [])) := by
  constructor
  · rintro e rfl
    unfold scipy_curvefit_chi2
    by_cases hv : verb > 0 <;> simp [hv]
  · rintro cs vc ier rfl hle
    unfold scipy_curvefit_chi2
    simp only [if_pos hle]

/-- C3 witness: a concrete raised exception with `verbosity = 1`. -/
theorem scipy_curvefit_failure_path_witness :
    scipy_curvefit_chi2 (fun _ _ => (0 : ℝ)) (.error "singular matrix") [] [] [] none 1
      = (.ok ⟨none, none, none, none, -1⟩,
          if (1 : ℤ) > 0
          then ["sluyspy.fit: fit failed: singular matrix", "Fit failed: -1"] else []) :=
  (scipy_curvefit_failure_path (fun _ _ => (0 : ℝ)) [] [] [] none 1
    (.error "singular matrix")).1 "singular matrix" rfl

/-- C4: on every successful fit (`ier > 0`) the coefficient uncertainties
returned by `scipy_curvefit_chi2` are the square roots of the diagonal of
the returned variance-covariance matrix, so `dcoefs[i]^2 = var_cov[i,i]`
(whenever that diagonal entry is nonnegative, which is the domain of the
real square root). -/
theorem scipy_curvefit_dcoefs_are_sqrt_diag (f : ℝ → List ℝ → ℝ)
    (cs : List ℝ) (vc : List (List ℝ)) (ier : ℤ) (xv yv cs0 : List ℝ)
    (ysig : Option (List ℝ)) (verb : ℤ) (hier : 0 < ier) :
    ∃ res : ScipyFitResult,
      (scipy_curvefit_chi2 f (.ok (cs, vc, ier)) xv yv cs0 ysig verb).1 = .ok res
      ∧ res.ier = ier ∧ res.var_cov = some vc
      ∧ res.dcoefs = some ((np_diag vc).map Real.sqrt)
      ∧ (∀ i : ℕ, (np_diag vc).getD i 0 = (vc.getD i []).getD i 0)
      ∧ ∀ i : ℕ, 0 ≤ (vc.getD i []).getD i 0 →
          ((res.dcoefs.getD []).getD i 0) ^ 2 = (vc.getD i []).getD i 0 := by
  obtain ⟨r, hr⟩ := scipy_curvefit_success_shape f cs vc ier xv yv cs0 ysig verb hier
  refine ⟨⟨some cs, some ((np_diag vc).map Real.sqrt), some r, some vc, ier⟩,
    by rw [hr], rfl, rfl, rfl, fun i => np_diag_getD vc i, fun i hnn => ?_⟩
  show (((np_diag vc).map Real.sqrt).getD i 0) ^ 2 = _
  rw [getD_map_sqrt, np_diag_getD]
  exact Real.sq_sqrt hnn

/-- C4 witness: a successful fit with variance-covariance matrix `[[4]]`. -/
theorem scipy_curvefit_dcoefs_are_sqrt_diag_witness :
    ∃ res : Sluyspy.ScipyFitResult,
      (scipy_curvefit_chi2 (fun _ _ => (0 : ℝ)) (.ok ([(1 : ℝ)], [[(4 : ℝ)]], 1))
        [] [] [] none 0).1 = .ok res
      ∧ res.dcoefs = some ((np_diag [[(4 : ℝ)]]).map Real.sqrt)
      ∧ ∀ i : ℕ, 0 ≤ (([[(4 : ℝ)]] : List (List ℝ)).getD i []).getD i 0 →
          ((res.dcoefs.getD []).getD i 0) ^ 2
            = (([[(4 : ℝ)]] : List (List ℝ)).getD i []).getD i 0 := by
  obtain ⟨res, h1, _, _, h4, _, h6⟩ := scipy_curvefit_dcoefs_are_sqrt_diag
    (fun _ _ => (0 : ℝ)) [(1 : ℝ)] [[(4 : ℝ)]] 1 [] [] [] none 0 (by norm_num)
  exact ⟨res, h1, h4, h6⟩

/-- C6: on equal-length inputs the sigma-screening step of
`print_fit_details` removes from each of the four arrays exactly the entries
whose sigma is not strictly positive, so the four screened arrays again have
equal length, namely the number of input points with positive sigma. -/
theorem sigma_screen_preserves_matching_lengths (xv yf yv sg : List ℝ)
    (hx : xv.length = sg.length) (hf : yf.length = sg.length)
    (hv : yv.length = sg.length) :
    (sigmaScreen (some xv) yf yv sg).1
        = some (((xv.zip sg).filter fun p => decide (0 < p.2)).map Prod.fst)
  ∧ (sigmaScreen (some xv) yf yv sg).2.1
        = ((yf.zip sg).filter fun p => decide (0 < p.2)).map Prod.fst
  ∧ (sigmaScreen (some xv) yf yv sg).2.2.1
        = ((yv.zip sg).filter fun p => decide (0 < p.2)).map Prod.fst
  ∧ (sigmaScreen (some xv) yf yv sg).2.2.2 = (sg.filter fun s => decide (0 < s))
  ∧ ((sigmaScreen (some xv) yf yv sg).1.getD []).length
        = (sg.filter fun s => decide (0 < s)).length
  ∧ (sigmaScreen (some xv) yf yv sg).2.1.length
        = (sg.filter fun s => decide (0 < s)).length
  ∧ (sigmaScreen (some xv) yf yv sg).2.2.1.length
        = (sg.filter fun s => decide (0 < s)).length
  ∧ (sigmaScreen (some xv) yf yv sg).2.2.2.length
        = (sg.filter fun s => decide (0 < s)).length := by
  have c1 := maskFilter_pos_eq_zip_filter sg xv hx
  have c2 := maskFilter_pos_eq_zip_filter sg yf hf
  have c3 := maskFilter_pos_eq_zip_filter sg yv hv
  have c4 := maskFilter_self_eq_filter sg
  have l1 := zip_filter_pos_length sg xv hx
  have l2 := zip_filter_pos_length sg yf hf
  have l3 := zip_filter_pos_length sg yv hv
  refine ⟨?_, ?_, ?_, ?_, ?_, ?_, ?_, ?_⟩ <;>
    simp [sigmaScreen, c1, c2, c3, c4, l1, l2, l3]

/-- C6 witness: the theorem applied where the second sigma is zero. -/
theorem sigma_screen_preserves_matching_lengths_witness :
    (sigmaScreen (some [(1 : ℝ), 2]) [(3 : ℝ), 4] [(5 : ℝ), 6] [(1 : ℝ), 0]).2.2.2
        = ([(1 : ℝ), 0].filter fun s => decide (0 < s))
    ∧ (sigmaScreen (some [(1 : ℝ), 2]) [(3 : ℝ), 4] [(5 : ℝ), 6] [(1 : ℝ), 0]).2.1.length
        = ([(1 : ℝ), 0].filter fun s => decide (0 < s)).length := by
  obtain ⟨_, _, _, h4, _, h6, _, _⟩ := sigma_screen_preserves_matching_lengths
    [(1 : ℝ), 2] [(3 : ℝ), 4] [(5 : ℝ), 6] [(1 : ℝ), 0] rfl rfl rfl
  exact ⟨h4, h6⟩

/-- C7: an unknown `fittype`, `fittype=scipy_curvefit` without a fit function
or without coefficients, and `fittype=None` without `yfit` values, all leave
`print_fit_details` through `cli.error` with its defaults: an error message
and process exit with code 1, never a returned value. -/
theorem print_fit_details_bad_args_exit (xv : Option (List ℝ)) (yv : List ℝ)
    (ysig : Option (List ℝ)) (cs : Option (List ℝ)) (f : Option (ℝ → List ℝ → ℝ))
    (y0 : Option (List ℝ)) (verb : ℤ) (ft : String)
    (hft1 : ft ≠ "np_polyfit") (hft2 : ft ≠ "scipy_curvefit") :
    print_fit_details xv yv ysig (some ft) cs f y0 verb
        = .error (.exitc ("ERROR: " ++ ("Unknown fittype: " ++ ft ++
            "; must be one of \"np_polyfit\", \"scipy_curvefit\" or None.")
            ++ ", aborting.") 1)
  ∧ print_fit_details xv yv ysig (some "scipy_curvefit") cs none y0 verb
        = .error (.exitc ("ERROR: "
            ++ "A fit function must be specified for fittype scipy_curvefit"
            ++ ", aborting.") 1)
  ∧ (∀ g : ℝ → List ℝ → ℝ,
      print_fit_details xv yv ysig (some "scipy_curvefit") none (some g) y0 verb
        = .error (.exitc ("ERROR: "
            ++ "Fit coefficients must be specified for fittype scipy_curvefit"
            ++ ", aborting.") 1))
  ∧ print_fit_details xv yv ysig none cs f none verb
        = .error (.exitc ("ERROR: " ++ "yfit values must be specified for fittype None"
            ++ ", aborting.") 1) := by
  refine ⟨?_, ?_, fun g => ?_, ?_⟩ <;>
    simp [print_fit_details, pfd_yfit, cliError, hft1, hft2]

/-- C7 witness: the unknown fit type `bogus`. -/
theorem print_fit_details_bad_args_exit_witness :
    print_fit_details none [] none (some "bogus") none none none 0
      = .error (.exitc ("ERROR: " ++ ("Unknown fittype: " ++ "bogus" ++
          "; must be one of \"np_polyfit\", \"scipy_curvefit\" or None.")
          ++ ", aborting.") 1) :=
  (print_fit_details_bad_args_exit none [] none none none none 0 "bogus"
    (by decide) (by decide)).1

/-! ### Claim theorems for `fit.py` (correlation matrix) and `gws.py` -/

/-- C5: for every square variance-covariance matrix, the correlation matrix
has entries `var_cov[i,j] / sqrt(var_cov[i,i]*var_cov[j,j])` (and the same
shape); with positive diagonal entries its diagonal is all ones, and it is
symmetric whenever the input is. -/
theorem correlation_matrix_normalisation {n : ℕ} (V : Matrix (Fin n) (Fin n) ℝ) :
    (∀ i j, correlation_matrix_from_variance_covariance_matrix V i j
        = V i j / Real.sqrt (V i i * V j j))
  ∧ ((∀ i, 0 < V i i) →
      ∀ i, correlation_matrix_from_variance_covariance_matrix V i i = 1)
  ∧ (V.IsSymm → (correlation_matrix_from_variance_covariance_matrix V).IsSymm) := by
  refine ⟨fun i j => rfl, fun h i => ?_, fun hs => ?_⟩
  · show V i i / Real.sqrt (V i i * V i i) = 1
    rw [Real.sqrt_mul_self (h i).le, div_self (h i).ne']
  · refine Matrix.IsSymm.ext fun i j => ?_
    show V j i / Real.sqrt (V j j * V i i) = V i j / Real.sqrt (V i i * V j j)
    rw [hs.apply i j, mul_comm (V j j) (V i i)]

/-- C5 witness: the 2x2 identity matrix as variance-covariance matrix. -/
theorem correlation_matrix_normalisation_witness :
    (∀ i : Fin 2, correlation_matrix_from_variance_covariance_matrix
        (1 : Matrix (Fin 2) (Fin 2) ℝ) i i = 1)
    ∧ (correlation_matrix_from_variance_covariance_matrix
        (1 : Matrix (Fin 2) (Fin 2) ℝ)).IsSymm :=
  ⟨(correlation_matrix_normalisation (1 : Matrix (Fin 2) (Fin 2) ℝ)).2.1
      (fun i => by rw [Matrix.one_apply_eq]; exact one_pos),
    (correlation_matrix_normalisation (1 : Matrix (Fin 2) (Fin 2) ℝ)).2.2
      Matrix.isSymm_one⟩

/-- C8: in every row of the `noise_curve` output, the total amplitude
spectral density is the sum of the shot-noise and radiation-pressure
components when `adhoc_lowf=False`, and that sum plus the ad-hoc
low-frequency component when `adhoc_lowf=True` (in which case the low-f
column is present in every row). -/
theorem noise_curve_asd_is_component_sum (ac : AstroConst) (Npts : ℕ)
    (f_low f_high Len P_L lam_L eta_pd M_mir R_in R_end PRfac : ℝ) (no_FP : Bool) :
    ((noise_curve ac Npts f_low f_high Len P_L lam_L eta_pd M_mir R_in R_end PRfac
        no_FP false).map fun r => r.asd)
      = ((noise_curve ac Npts f_low f_high Len P_L lam_L eta_pd M_mir R_in R_end PRfac
        no_FP false).map fun r => r.asd_shot + r.asd_rad)
  ∧ ((noise_curve ac Npts f_low f_high Len P_L lam_L eta_pd M_mir R_in R_end PRfac
        no_FP true).map fun r => r.asd)
      = ((noise_curve ac Npts f_low f_high Len P_L lam_L eta_pd M_mir R_in R_end PRfac
        no_FP true).map fun r => r.asd_shot + r.asd_rad + r.asd_lowf.getD 0)
  ∧ ((noise_curve ac Npts f_low f_high Len P_L lam_L eta_pd M_mir R_in R_end PRfac
        no_FP true).map fun r => r.asd_lowf)
      = ((noise_curve ac Npts f_low f_high Len P_L lam_L eta_pd M_mir R_in R_end PRfac
        no_FP true).map fun r =>
          some ((1 / 1000000 : ℝ) / r.fgw ^ (6 : ℕ) / Len * (1 / 10000 : ℝ))) := by
  refine ⟨?_, ?_, ?_⟩ <;>
  · unfold noise_curve
    rw [List.map_map, List.map_map]
    congr 1

/-- C10: `cbc_waveform_frequency` does not depend on its `risco_fac`,
`Fplcr` and `verbosity` arguments: any two calls agreeing on the remaining
arguments return identical dataframes, because the delegated call passes the
hard-coded `risco_fac=1.5`, `Fplcr=2/5`, `verbosity=0`. -/
theorem cbc_waveform_frequency_ignores_trailing_args (ac : AstroConst)
    (m1 m2 dist cosi f_low f_high : ℝ) (Npts : ℕ)
    (r1 r2 F1 F2 : ℝ) (v1 v2 : ℤ) :
    cbc_waveform_frequency ac m1 m2 dist cosi f_low f_high Npts r1 F1 v1
      = cbc_waveform_frequency ac m1 m2 dist cosi f_low f_high Npts r2 F2 v2 :=
  rfl
